import Mathlib

/-!
Shallow embedding of `src/server_gif.py` (the `/face.gif` request handler and
its helpers) together with theorems about the claims of the specification.

The handler `serve_face_gif` reads two query parameters (`seeds`, `duration`),
checks two optional capabilities (cairosvg, Pillow), splits and strips the
seed string, renders one frame per seed via the external `generate_svg`
followed by `cairosvg.svg2png` + `PIL.Image.open`, and assembles the frames
into an animated GIF with `loop=0`.

Modelling decisions:
* Query parameters are `Option String`: `none` means the parameter is absent
  from the query string, `some v` means it is present with value `v`
  (Werkzeug returns the empty string for `?seeds=`, so that is `some ""`).
* The external face generator `generate_svg` (module `generate_face_gif`,
  not part of the provided sources) is a parameter `synth : String → String`;
  the spec's contract makes it a pure total function.
* Rasterization (`cairosvg.svg2png` + `Image.open`) is a parameter
  `raster : String → Except String Frame`, allowed to raise (model: `.error`).
* Encoding (`frames[0].save(...)`) is modelled by `assembleGif`, which records
  the frame list, per-frame duration, loop count and optimize flag of the
  produced GIF stream; `frames[0]` on an empty list raises IndexError.
* A Python exception escaping the handler is the outcome
  `HttpOutcome.uncaught`; Flask would then produce its generic error page,
  not a body written by the handler.
-/

namespace ServerGif

/-- The ASCII whitespace characters removed by Python `str.strip()`. -/
def pyIsSpace (c : Char) : Bool :=
  c = ' ' || c = '\t' || c = '\n' || c = '\r' || c = '\x0b' || c = '\x0c'

/-- `str.strip()` on the character list: drop whitespace from both ends. -/
def stripChars (l : List Char) : List Char :=
  List.rdropWhile pyIsSpace (l.dropWhile pyIsSpace)

/-- Python `s.strip()`. -/
def pyStrip (s : String) : String :=
  ⟨stripChars s.data⟩

/-- Python `s.split(',')` on the character list: split at every comma,
keeping empty pieces; the empty input yields one empty piece. -/
def splitOnComma : List Char → List (List Char)
  | [] => [[]]
  | c :: rest =>
    if c = ',' then
      [] :: splitOnComma rest
    else
      match splitOnComma rest with
      | [] => [[c]]
      | piece :: pieces => (c :: piece) :: pieces

/-- Python `s.split(',')` on strings. -/
def pySplit (s : String) : List String :=
  (splitOnComma s.data).map fun l => ⟨l⟩

/-- Value of a non-empty all-digit character list, `none` otherwise. -/
def digitsToNat (l : List Char) : Option Nat :=
  if l = [] then none
  else if l.all Char.isDigit then
    some (l.foldl (fun acc c => acc * 10 + (c.toNat - 48)) 0)
  else none

/-- Python `int(s)` for decimal string literals: surrounding whitespace is
ignored, an optional sign precedes at least one digit; `none` models the
`ValueError` CPython raises otherwise. -/
def pyInt (s : String) : Option Int :=
  match stripChars s.data with
  | '+' :: rest => (digitsToNat rest).map Int.ofNat
  | '-' :: rest => (digitsToNat rest).map fun n => -(Int.ofNat n)
  | rest => (digitsToNat rest).map Int.ofNat

/-- `int(request.args.get('duration', 1000))`: the default `1000` is already
an `int`, a present parameter is a string parsed by `pyInt`. -/
def parseDuration : Option String → Option Int
  | none => some 1000
  | some s => pyInt s

/-- `[s.strip() for s in seeds_param.split(',')]`. -/
def normalizeSeeds (raw : String) : List String :=
  (pySplit raw).map pyStrip

/-- Body of the 500 response when cairosvg is missing. -/
def cairoErrMsg : String :=
  "GIF generation requires cairosvg. Install: pip install cairosvg"

/-- Body of the 500 response when Pillow is missing. -/
def pilErrMsg : String :=
  "GIF generation requires Pillow. Install: pip install pillow"

/-- Body of the 400 response for a missing/empty first seed token. -/
def seedsErrMsg : String :=
  "Error: \x27seeds\x27 parameter required (comma-separated list)"

/-- Body of the catch-all 500 response wrapping an exception text. -/
def genErrMsg (e : String) : String :=
  "Error generating GIF: " ++ e

/-- Message of the `ValueError` raised by `int()` on a bad literal. -/
def intErrMsg (s : String) : String :=
  "invalid literal for int() with base 10: \x27" ++ s ++ "\x27"

/-- The encoded animated GIF produced by `frames[0].save(output, format=GIF,
save_all, append_images=frames[1:], duration, loop=0, optimize=True)`:
frame sequence, per-frame duration (ms), loop count and optimize flag. -/
structure EncodedGif (Frame : Type) where
  frames : List Frame
  duration : Int
  loop : Nat
  optimize : Bool
deriving DecidableEq

/-- Outcome of one `/face.gif` request: a plain-text `Response`, the
successful GIF `Response`, or a Python exception escaping the handler. -/
inductive HttpOutcome (Frame : Type) where
  | response (status : Nat) (mimetype : String) (body : String)
  | gifResponse (status : Nat) (mimetype : String) (gif : EncodedGif Frame)
  | uncaught (msg : String)
deriving DecidableEq

/-- The per-seed loop: `generate_svg` then rasterize, collecting frames in
seed order; the first raised exception aborts the loop. -/
def renderFrames {Frame : Type} (synth : String → String)
    (raster : String → Except String Frame) : List String → Except String (List Frame)
  | [] => Except.ok []
  | s :: rest => do
    let f ← raster (synth s)
    let fs ← renderFrames synth raster rest
    pure (f :: fs)

/-- `frames[0].save(..., append_images=frames[1:], duration=d, loop=0,
optimize=True)`: encodes all frames in order; `frames[0]` on an empty list
raises IndexError. -/
def assembleGif {Frame : Type} (frames : List Frame) (duration : Int) :
    Except String (EncodedGif Frame) :=
  match frames with
  | [] => Except.error "list index out of range"
  | f :: rest => Except.ok ⟨f :: rest, duration, 0, true⟩

/-- The `/face.gif` handler `serve_face_gif` of `src/server_gif.py`.
Control flow follows the source line by line: read `seeds` (default
`"default"`), parse `duration` (default `1000`; a bad literal raises before
anything else), check cairosvg then Pillow, then inside `try`: split/strip
the seeds, reject an empty first token with 400, render one frame per seed,
assemble the GIF; any exception inside the `try` becomes the wrapped 500. -/
def serve_face_gif {Frame : Type} (synth : String → String)
    (raster : String → Except String Frame)
    (hasCairo hasPil : Bool) (seedsParam durationParam : Option String) :
    HttpOutcome Frame :=
  match parseDuration durationParam with
  | none => HttpOutcome.uncaught (intErrMsg (durationParam.getD ""))
  | some duration =>
    if hasCairo = false then
      HttpOutcome.response 500 "text/plain" cairoErrMsg
    else if hasPil = false then
      HttpOutcome.response 500 "text/plain" pilErrMsg
    else
      if normalizeSeeds (seedsParam.getD "default") = [] ∨
          (normalizeSeeds (seedsParam.getD "default")).headD "" = "" then
        HttpOutcome.response 400 "text/plain" seedsErrMsg
      else
        match renderFrames synth raster (normalizeSeeds (seedsParam.getD "default")) with
        | Except.error e => HttpOutcome.response 500 "text/plain" (genErrMsg e)
        | Except.ok frames =>
          match assembleGif frames duration with
          | Except.error e => HttpOutcome.response 500 "text/plain" (genErrMsg e)
          | Except.ok gif => HttpOutcome.gifResponse 200 "image/gif" gif

/-! ### Helper lemmas -/

/-- A total rasterizer makes the per-seed loop succeed with one frame per
seed, in seed order. -/
theorem renderFrames_ok {Frame : Type} (synth : String → String)
    (r : String → Frame) (l : List String) :
    renderFrames synth (fun s => Except.ok (r s)) l
      = Except.ok (l.map fun s => r (synth s)) := by
  induction l with
  | nil => rfl
  | cons s rest ih => simp only [renderFrames, ih]; rfl

/-- A stripped character list has no leading whitespace. -/
theorem stripChars_dropWhile (l : List Char) :
    (stripChars l).dropWhile pyIsSpace = stripChars l := by
  rw [List.dropWhile_eq_self_iff]
  intro hl
  have hpre : List.rdropWhile pyIsSpace (l.dropWhile pyIsSpace)
      <+: l.dropWhile pyIsSpace := List.rdropWhile_prefix _ _
  have hl' : 0 < (List.rdropWhile pyIsSpace (l.dropWhile pyIsSpace)).length := hl
  have hlen : 0 < (l.dropWhile pyIsSpace).length :=
    Nat.lt_of_lt_of_le hl' hpre.length_le
  have hget := hpre.getElem hl'
  have hnot := List.dropWhile_get_zero_not pyIsSpace l hlen
  simp only [stripChars, List.get_eq_getElem] at hnot ⊢
  rw [hget]
  exact hnot

/-- A stripped character list has no trailing whitespace. -/
theorem stripChars_rdropWhile (l : List Char) :
    List.rdropWhile pyIsSpace (stripChars l) = stripChars l :=
  List.rdropWhile_idempotent _ _

/-- Stripping is idempotent on character lists. -/
theorem stripChars_idem (l : List Char) :
    stripChars (stripChars l) = stripChars l := by
  show List.rdropWhile pyIsSpace ((stripChars l).dropWhile pyIsSpace) = stripChars l
  rw [stripChars_dropWhile, stripChars_rdropWhile]

/-- Stripping is idempotent on strings. -/
theorem pyStrip_idem (s : String) : pyStrip (pyStrip s) = pyStrip s := by
  simp [pyStrip, stripChars_idem]

/-- Python `split` never returns an empty list of pieces. -/
theorem splitOnComma_ne_nil (l : List Char) : splitOnComma l ≠ [] := by
  induction l with
  | nil => simp [splitOnComma]
  | cons c rest ih =>
    by_cases hc : c = ','
    · simp [splitOnComma, hc]
    · simp only [splitOnComma, if_neg hc]
      cases h : splitOnComma rest with
      | nil => simp
      | cons piece pieces => simp

/-- When both capabilities are present, the duration parses and the first
seed token is non-empty, the handler succeeds and returns the GIF encoding
all seeds' frames in order. -/
theorem serve_ok {Frame : Type} (synth : String → String) (r : String → Frame)
    (sp dp : Option String) (d : Int)
    (hd : parseDuration dp = some d)
    (hne : (normalizeSeeds (sp.getD "default")).headD "" ≠ "") :
    serve_face_gif synth (fun s => Except.ok (r s)) true true sp dp
      = HttpOutcome.gifResponse 200 "image/gif"
          ⟨(normalizeSeeds (sp.getD "default")).map (fun s => r (synth s)), d, 0, true⟩ := by
  have hnil : normalizeSeeds (sp.getD "default") ≠ [] := by
    intro h
    exact hne (by rw [h]; rfl)
  obtain ⟨s0, rest, hseeds⟩ : ∃ s0 rest,
      normalizeSeeds (sp.getD "default") = s0 :: rest := by
    cases h : normalizeSeeds (sp.getD "default") with
    | nil => exact absurd h hnil
    | cons a t => exact ⟨a, t, rfl⟩
  have hne0 : s0 ≠ "" := by
    rw [hseeds] at hne
    simpa using hne
  simp only [serve_face_gif, hd, renderFrames_ok, hseeds]
  simp [assembleGif, hne0]

/-- Inversion for a successful response: it can only arise with both
capabilities present, status 200, MIME `image/gif`, loop count 0 and the
parsed duration. -/
theorem serve_gif_inv {Frame : Type} (synth : String → String)
    (raster : String → Except String Frame) (hasCairo hasPil : Bool)
    (sp dp : Option String) (st : Nat) (mt : String) (gif : EncodedGif Frame)
    (h : serve_face_gif synth raster hasCairo hasPil sp dp
          = HttpOutcome.gifResponse st mt gif) :
    st = 200 ∧ mt = "image/gif" ∧ gif.loop = 0 ∧
      parseDuration dp = some gif.duration ∧ hasCairo = true ∧ hasPil = true := by
  unfold serve_face_gif at h
  cases hpd : parseDuration dp with
  | none => rw [hpd] at h; simp at h
  | some d =>
    rw [hpd] at h
    cases hasCairo with
    | false => simp at h
    | true =>
      cases hasPil with
      | false => simp at h
      | true =>
        simp only [Bool.true_eq_false, if_false] at h
        by_cases hcond : normalizeSeeds (sp.getD "default") = [] ∨
            (normalizeSeeds (sp.getD "default")).headD "" = ""
        · rw [if_pos hcond] at h; simp at h
        · rw [if_neg hcond] at h
          cases hr : renderFrames synth raster (normalizeSeeds (sp.getD "default")) with
          | error e => rw [hr] at h; simp at h
          | ok frames =>
            rw [hr] at h
            cases frames with
            | nil => simp [assembleGif] at h
            | cons f rest =>
              simp only [assembleGif] at h
              injection h with h1 h2 h3
              subst h3
              exact ⟨h1.symm, h2.symm, rfl, rfl, rfl, rfl⟩

/-- Inversion for the 400 response: it can only arise with both
capabilities present. -/
theorem serve_400_inv {Frame : Type} (synth : String → String)
    (raster : String → Except String Frame) (hasCairo hasPil : Bool)
    (sp dp : Option String) (mt b : String)
    (h : serve_face_gif synth raster hasCairo hasPil sp dp
          = HttpOutcome.response 400 mt b) :
    hasCairo = true ∧ hasPil = true := by
  unfold serve_face_gif at h
  cases hpd : parseDuration dp with
  | none => rw [hpd] at h; simp at h
  | some d =>
    rw [hpd] at h
    cases hasCairo with
    | false => simp [cairoErrMsg] at h
    | true =>
      cases hasPil with
      | false => simp [pilErrMsg] at h
      | true => exact ⟨rfl, rfl⟩

/-- With a parsable (or absent) duration, no exception escapes the handler. -/
theorem serve_no_uncaught {Frame : Type} (synth : String → String)
    (raster : String → Except String Frame) (hasCairo hasPil : Bool)
    (sp dp : Option String) (d : Int) (hd : parseDuration dp = some d)
    (m : String) :
    serve_face_gif synth raster hasCairo hasPil sp dp ≠ HttpOutcome.uncaught m := by
  unfold serve_face_gif
  rw [hd]
  cases hasCairo with
  | false => simp
  | true =>
    cases hasPil with
    | false => simp
    | true =>
      simp only [Bool.true_eq_false, if_false]
      by_cases hcond : normalizeSeeds (sp.getD "default") = [] ∨
          (normalizeSeeds (sp.getD "default")).headD "" = ""
      · rw [if_pos hcond]; simp
      · rw [if_neg hcond]
        cases hr : renderFrames synth raster (normalizeSeeds (sp.getD "default")) with
        | error e => simp
        | ok frames =>
          cases frames with
          | nil => simp [assembleGif]
          | cons f rest => simp [assembleGif]

/-! ### Claims -/

/-- C1: the end-to-end pipeline is deterministic: provided the external
`generate_svg` and the rasterization backend behave as pure functions (two
invocations agree pointwise on every seed), two invocations of the handler
with identical `seeds` and `duration` parameters produce identical outcomes,
in particular byte-identical encoded animations. -/
theorem serve_deterministic {Frame : Type}
    (synth1 synth2 : String → String)
    (raster1 raster2 : String → Except String Frame)
    (hsynth : ∀ s, synth1 s = synth2 s)
    (hraster : ∀ s, raster1 s = raster2 s)
    (hasCairo hasPil : Bool) (sp dp : Option String) :
    serve_face_gif synth1 raster1 hasCairo hasPil sp dp
      = serve_face_gif synth2 raster2 hasCairo hasPil sp dp := by
  rw [funext hsynth, funext hraster]

/-- Witness for C1 at a concrete request. -/
theorem serve_deterministic_witness :
    @serve_face_gif String (fun s => s) (fun s => Except.ok s) true true (some "a,b") none
      = @serve_face_gif String (fun s => s) (fun s => Except.ok s) true true (some "a,b") none :=
  serve_deterministic (fun s => s) (fun s => s) (fun s => Except.ok s) (fun s => Except.ok s)
    (fun _ => rfl) (fun _ => rfl) true true (some "a,b") none

/-- C2: frames appear in exactly the order of the seed tokens: with both
capabilities present, a parsed duration and a non-empty first token, the
encoded animation's frame sequence is the rasterized synthesizer output of
each normalized seed token, in request order; for seeds "a,b,c" this is
[frame a, frame b, frame c]. -/
theorem frame_order_preserved {Frame : Type} (synth : String → String)
    (r : String → Frame) (sp dp : Option String) (d : Int)
    (hd : parseDuration dp = some d)
    (hne : (normalizeSeeds (sp.getD "default")).headD "" ≠ "") :
    serve_face_gif synth (fun s => Except.ok (r s)) true true sp dp
      = HttpOutcome.gifResponse 200 "image/gif"
          ⟨(normalizeSeeds (sp.getD "default")).map (fun s => r (synth s)), d, 0, true⟩ :=
  serve_ok synth r sp dp d hd hne

/-- Witness for C2: seeds "a,b,c" give the three frames in order. -/
theorem frame_order_preserved_witness :
    @serve_face_gif String (fun s => s) (fun s => Except.ok s) true true (some "a,b,c") none
      = HttpOutcome.gifResponse 200 "image/gif" ⟨["a", "b", "c"], 1000, 0, true⟩ := by
  have h := frame_order_preserved (fun s => s) (fun s : String => s) (some "a,b,c") none 1000
    rfl (by decide)
  simpa using h

/-- C3 counterexample: splitting and stripping "a,,b" keeps the empty middle
token, so the normalized list does contain the empty string, and the handler
passes it to the synthesizer (the request succeeds with a frame generated
from the empty seed). -/
theorem normalize_empty_token_cex :
    normalizeSeeds "a,,b" = ["a", "", "b"] ∧ "" ∈ normalizeSeeds "a,,b" ∧
      @serve_face_gif String (fun s => s) (fun s => Except.ok s) true true (some "a,,b") none
        = HttpOutcome.gifResponse 200 "image/gif" ⟨["a", "", "b"], 1000, 0, true⟩ := by
  decide

/-- C3 amended: the Seed Normalizer returns the ordered sequence of trimmed
tokens (each token is a fixed point of stripping), but empty tokens are NOT
removed: only the first token is validated by the handler, and later empty
tokens are passed on to the Synthesizer. -/
theorem normalize_trimmed_tokens (raw t : String)
    (ht : t ∈ normalizeSeeds raw) : pyStrip t = t := by
  obtain ⟨piece, hmem, rfl⟩ := List.mem_map.mp ht
  exact pyStrip_idem piece

/-- Witness for C3 amended at token "a" of "a,,b". -/
theorem normalize_trimmed_tokens_witness :
    "a" ∈ normalizeSeeds "a,,b" ∧ pyStrip "a" = "a" :=
  ⟨by decide, normalize_trimmed_tokens "a,,b" "a" (by decide)⟩

/-- C4 counterexample: a present-but-empty `seeds=` parameter does NOT fall
back to the token "default": Werkzeug hands the handler the empty string, so
the first token is empty and the request fails with the 400 response. -/
theorem empty_seeds_param_cex :
    @serve_face_gif String (fun s => s) (fun s => Except.ok s) true true (some "") none
      = HttpOutcome.response 400 "text/plain" seedsErrMsg := by
  decide

/-- C4 amended: only an omitted `seeds` parameter falls back to the token
"default" and succeeds; a present-but-empty `seeds=` behaves like `seeds=,`:
both yield an empty first token and fail with status 400 and the exact body
of `seedsErrMsg`. -/
theorem default_seeds_behavior {Frame : Type} (synth : String → String)
    (r : String → Frame) (dp : Option String) (d : Int)
    (hd : parseDuration dp = some d) :
    serve_face_gif synth (fun s => Except.ok (r s)) true true none dp
      = HttpOutcome.gifResponse 200 "image/gif" ⟨[r (synth "default")], d, 0, true⟩
    ∧ serve_face_gif synth (fun s => Except.ok (r s)) true true (some "") dp
      = HttpOutcome.response 400 "text/plain" seedsErrMsg
    ∧ serve_face_gif synth (fun s => Except.ok (r s)) true true (some ",") dp
      = HttpOutcome.response 400 "text/plain" seedsErrMsg := by
  refine ⟨?_, ?_, ?_⟩
  · have h := serve_ok synth r none dp d hd (by decide)
    have hns : normalizeSeeds "default" = ["default"] := by decide
    simpa [Option.getD, hns] using h
  · simp only [serve_face_gif, hd]
    rw [if_neg (by decide), if_neg (by decide), if_pos (by decide)]
  · simp only [serve_face_gif, hd]
    rw [if_neg (by decide), if_neg (by decide), if_pos (by decide)]

/-- Witness for C4 amended: omitted seeds succeed with the "default" frame. -/
theorem default_seeds_behavior_witness :
    @serve_face_gif String (fun s => s) (fun s => Except.ok s) true true none none
      = HttpOutcome.gifResponse 200 "image/gif" ⟨["default"], 1000, 0, true⟩ :=
  (default_seeds_behavior (fun s => s) (fun s : String => s) none 1000 rfl).1

/-- C5 counterexample: the claim quantifies over every request, but the
`duration` parameter is parsed before the capability checks; with cairosvg
absent and `duration=abc` the handler raises `ValueError` in `int()` before
reaching the capability gate, so the outcome is not the cairosvg 500 body. -/
theorem capability_gate_cex :
    @serve_face_gif String (fun s => s) (fun s => Except.ok s) false true (some "x") (some "abc")
      = HttpOutcome.uncaught (intErrMsg "abc") ∧
    @serve_face_gif String (fun s => s) (fun s => Except.ok s) false true (some "x") (some "abc")
      ≠ HttpOutcome.response 500 "text/plain" cairoErrMsg := by
  decide

/-- C5 amended: for every request whose `duration` parameter is absent or a
valid integer literal, the capability checks run in order — cairosvg first,
then Pillow — before any per-seed work (the outcome does not depend on the
synthesizer or rasterizer), and they produce the exact 500 bodies. -/
theorem capability_gate_order {Frame : Type} (synth : String → String)
    (raster : String → Except String Frame) (hasPil : Bool)
    (sp dp : Option String) (d : Int) (hd : parseDuration dp = some d) :
    serve_face_gif synth raster false hasPil sp dp
      = HttpOutcome.response 500 "text/plain" cairoErrMsg
    ∧ serve_face_gif synth raster true false sp dp
      = HttpOutcome.response 500 "text/plain" pilErrMsg := by
  constructor
  · simp [serve_face_gif, hd]
  · simp [serve_face_gif, hd]

/-- Witness for C5 amended with cairosvg absent. -/
theorem capability_gate_order_witness :
    @serve_face_gif String (fun s => s) (fun s => Except.ok s) false true (some "x") none
      = HttpOutcome.response 500 "text/plain" cairoErrMsg :=
  (capability_gate_order (fun s => s) (fun s => Except.ok s) true (some "x") none 1000 rfl).1

/-- C6 counterexample: with both capabilities present, `duration=abc` raises
`ValueError` in `int()` before the `try` block, so the exception escapes the
handler instead of being wrapped into the "Error generating GIF: " body. -/
theorem catch_all_cex :
    @serve_face_gif String (fun s => s) (fun s => Except.ok s) true true (some "x") (some "abc")
      = HttpOutcome.uncaught (intErrMsg "abc") := by
  decide

/-- C6 amended: exceptions raised inside the `try` block (per-seed synthesis
and rasterization, frame indexing, encoding) are caught and surfaced as a 500
response whose body is "Error generating GIF: " followed by the exception
text, and with an absent or parsable `duration` no exception escapes the
handler; but an exception from parsing the `duration` parameter is raised
before the `try` block and escapes unhandled. -/
theorem catch_all_inside_try {Frame : Type} (synth : String → String)
    (raster : String → Except String Frame) (hasCairo hasPil : Bool)
    (sp dp : Option String) (d : Int) (hd : parseDuration dp = some d) :
    (∀ m, serve_face_gif synth raster hasCairo hasPil sp dp ≠ HttpOutcome.uncaught m)
    ∧ (∀ e, hasCairo = true → hasPil = true →
        (normalizeSeeds (sp.getD "default")).headD "" ≠ "" →
        renderFrames synth raster (normalizeSeeds (sp.getD "default")) = Except.error e →
        serve_face_gif synth raster hasCairo hasPil sp dp
          = HttpOutcome.response 500 "text/plain" (genErrMsg e)) := by
  constructor
  · exact fun m => serve_no_uncaught synth raster hasCairo hasPil sp dp d hd m
  · intro e hc hp hne hre
    subst hc; subst hp
    have hcond : ¬(normalizeSeeds (sp.getD "default") = [] ∨
        (normalizeSeeds (sp.getD "default")).headD "" = "") := by
      intro h
      cases h with
      | inl h => exact hne (by rw [h]; rfl)
      | inr h => exact hne h
    simp only [serve_face_gif, hd, hre]
    rw [if_neg (by decide), if_neg (by decide), if_neg hcond]

/-- Witness for C6 amended: a rasterization failure is wrapped into the
catch-all 500 body. -/
theorem catch_all_inside_try_witness :
    @serve_face_gif String (fun s => s) (fun _ => Except.error "boom") true true (some "x") none
      = HttpOutcome.response 500 "text/plain" (genErrMsg "boom") :=
  (catch_all_inside_try (fun s => s) (fun _ => Except.error "boom") true true (some "x") none
    1000 rfl).2 "boom" rfl rfl (by decide) rfl

/-- C7 counterexample: `duration=0` is not rejected: the request succeeds and
produces an encoded animation whose per-frame duration is 0, which is not
positive. -/
theorem duration_nonpositive_cex :
    @serve_face_gif String (fun s => s) (fun s => Except.ok s) true true (some "x") (some "0")
      = HttpOutcome.gifResponse 200 "image/gif" ⟨["x"], 0, 0, true⟩ := by
  decide

/-- C7 amended: the frame duration actually used in a successful animation is
exactly the parsed value of the `duration` parameter — 1000 when the
parameter is unspecified — but it is never validated for positivity:
non-positive values are used as-is and such requests still succeed. -/
theorem duration_used {Frame : Type} (synth : String → String)
    (raster : String → Except String Frame) (hasCairo hasPil : Bool)
    (sp dp : Option String) (st : Nat) (mt : String) (gif : EncodedGif Frame)
    (h : serve_face_gif synth raster hasCairo hasPil sp dp
          = HttpOutcome.gifResponse st mt gif) :
    parseDuration dp = some gif.duration ∧ (dp = none → gif.duration = 1000) := by
  obtain ⟨-, -, -, hdur, -, -⟩ := serve_gif_inv synth raster hasCairo hasPil sp dp st mt gif h
  refine ⟨hdur, ?_⟩
  intro hdp
  subst hdp
  simp only [parseDuration, Option.some.injEq] at hdur
  exact hdur.symm

/-- Witness for C7 amended at a successful request with omitted duration. -/
theorem duration_used_witness :
    parseDuration none = some ((⟨["x"], 1000, 0, true⟩ : EncodedGif String)).duration ∧
      ((none : Option String) = none →
        (⟨["x"], 1000, 0, true⟩ : EncodedGif String).duration = 1000) :=
  duration_used (fun s => s) (fun s => Except.ok s) true true (some "x") none 200 "image/gif"
    ⟨["x"], 1000, 0, true⟩ (by decide)

/-- C8: each comma-separated piece of the raw seeds string is trimmed of
surrounding whitespace while order is preserved: the i-th normalized token is
the stripped i-th piece of the split, no token carries leading or trailing
whitespace, and " a , b " normalizes to exactly ["a", "b"]. -/
theorem whitespace_tolerance :
    normalizeSeeds " a , b " = ["a", "b"]
    ∧ (∀ raw : String, (normalizeSeeds raw).length = (pySplit raw).length)
    ∧ (∀ raw : String, ∀ i : Nat, ∀ h1 : i < (normalizeSeeds raw).length,
        ∀ h2 : i < (pySplit raw).length,
        (normalizeSeeds raw).get ⟨i, h1⟩ = pyStrip ((pySplit raw).get ⟨i, h2⟩))
    ∧ (∀ raw t, t ∈ normalizeSeeds raw →
        t.data.dropWhile pyIsSpace = t.data
        ∧ List.rdropWhile pyIsSpace t.data = t.data) := by
  refine ⟨by decide, fun raw => by simp [normalizeSeeds], ?_, ?_⟩
  · intro raw i h1 h2
    simp [normalizeSeeds, List.get_eq_getElem]
  · intro raw t ht
    obtain ⟨piece, hmem, rfl⟩ := List.mem_map.mp ht
    exact ⟨stripChars_dropWhile piece.data, stripChars_rdropWhile piece.data⟩

/-- Witness for C8: the token "a" of " a , b " has no surrounding
whitespace. -/
theorem whitespace_tolerance_witness :
    "a".data.dropWhile pyIsSpace = "a".data
      ∧ List.rdropWhile pyIsSpace "a".data = "a".data :=
  whitespace_tolerance.2.2.2 " a , b " "a" (by decide)

/-- C9: every successful request encodes the animation with loop count 0,
the GIF convention for looping forever. -/
theorem loop_forever {Frame : Type} (synth : String → String)
    (raster : String → Except String Frame) (hasCairo hasPil : Bool)
    (sp dp : Option String) (st : Nat) (mt : String) (gif : EncodedGif Frame)
    (h : serve_face_gif synth raster hasCairo hasPil sp dp
          = HttpOutcome.gifResponse st mt gif) :
    gif.loop = 0 :=
  (serve_gif_inv synth raster hasCairo hasPil sp dp st mt gif h).2.2.1

/-- Witness for C9 at a concrete successful request. -/
theorem loop_forever_witness :
    (⟨["x"], 1000, 0, true⟩ : EncodedGif String).loop = 0 :=
  loop_forever (fun s => s) (fun s => Except.ok s) true true (some "x") none 200 "image/gif"
    ⟨["x"], 1000, 0, true⟩ (by decide)

/-- C10 counterexample: with Pillow absent but a malformed `duration=abc`,
the handler raises in `int()` before the capability gate, so the outcome is
not the Pillow capability message. -/
theorem capability_precedence_cex :
    @serve_face_gif String (fun s => s) (fun s => Except.ok s) true false (some ",") (some "abc")
      = HttpOutcome.uncaught (intErrMsg "abc") ∧
    @serve_face_gif String (fun s => s) (fun s => Except.ok s) true false (some ",") (some "abc")
      ≠ HttpOutcome.response 500 "text/plain" pilErrMsg := by
  decide

/-- C10 amended: for requests whose `duration` is absent or parses as an
integer, a missing capability always wins over input validation — even for an
empty or malformed `seeds` parameter the outcome is the corresponding 500
capability message; and the 400 InvalidInput response can only ever be
produced when both capabilities are present. -/
theorem capability_precedence {Frame : Type} (synth : String → String)
    (raster : String → Except String Frame) (sp dp : Option String) (d : Int)
    (hd : parseDuration dp = some d) :
    (∀ hasPil, serve_face_gif synth raster false hasPil sp dp
        = HttpOutcome.response 500 "text/plain" cairoErrMsg)
    ∧ serve_face_gif synth raster true false sp dp
        = HttpOutcome.response 500 "text/plain" pilErrMsg
    ∧ (∀ hasCairo hasPil mt b,
        serve_face_gif synth raster hasCairo hasPil sp dp = HttpOutcome.response 400 mt b →
        hasCairo = true ∧ hasPil = true) := by
  refine ⟨fun hasPil => by simp [serve_face_gif, hd], by simp [serve_face_gif, hd], ?_⟩
  intro hasCairo hasPil mt b h
  exact serve_400_inv synth raster hasCairo hasPil sp dp mt b h

/-- Witness for C10 amended: cairosvg absent beats malformed seeds. -/
theorem capability_precedence_witness :
    @serve_face_gif String (fun s => s) (fun s => Except.ok s) false true (some ",") none
      = HttpOutcome.response 500 "text/plain" cairoErrMsg :=
  (capability_precedence (fun s => s) (fun s => Except.ok s) (some ",") none 1000 rfl).1 true

end ServerGif
